import Mathlib

/-!
Verification of the session registry and message-routing layer of the
actions-playground MCP gateway (`src/index.ts`).

The process-wide table `transports : Record<string, TransportPayload>` is
modelled as an association list from session ids to the stored identity
token (`currentJwt`); the transport handle itself is identified by its
session id, which is how the code addresses it everywhere.  JavaScript
object semantics are embedded directly: property assignment overwrites in
place or appends a fresh key, `delete` removes the key if present and is a
no-op otherwise, and `Object.keys(t).length` is the number of entries.
-/

namespace McpGateway

/-- The session registry: `transports` in `src/index.ts`, mapping a
session id to its stored `currentJwt`. -/
abbrev Registry := List (String × String)

/-- `Object.keys(transports).length` (used by `/health` and implicitly by
the registry invariants). -/
def countReg (reg : Registry) : Nat := reg.length

/-- Property lookup `transports[sessionId]`. -/
def lookupReg : Registry → String → Option String
  | [], _ => none
  | (k, v) :: rest, key => if k = key then some v else lookupReg rest key

/-- Property assignment `transports[id] = payload`: overwrite in place when
the key exists, append otherwise (JS insertion-order semantics). -/
def putReg (reg : Registry) (k v : String) : Registry :=
  if (lookupReg reg k).isSome then
    reg.map (fun p => if p.1 = k then (k, v) else p)
  else
    reg ++ [(k, v)]

/-- `delete transports[id]`: removes the entry when present, no-op
otherwise, and never throws. -/
def removeReg (reg : Registry) (k : String) : Registry :=
  reg.filter (fun p => p.1 != k)

/-- The `for (const key in transports) delete transports[key]` loop in
`handleShutdown`: clears the whole table. -/
def drainReg (_reg : Registry) : Registry := []

/-- Uniqueness of session ids in the table: a JS object holds each
property key at most once. -/
def KeysNodup (reg : Registry) : Prop := (reg.map Prod.fst).Nodup

instance (reg : Registry) : Decidable (KeysNodup reg) := by
  unfold KeysNodup; infer_instance

theorem lookupReg_eq_none_iff (reg : Registry) (k : String) :
    lookupReg reg k = none ↔ ∀ p ∈ reg, p.1 ≠ k := by
  induction reg with
  | nil => simp [lookupReg]
  | cons hd tl ih =>
    by_cases h : hd.1 = k
    · simp only [lookupReg]
      constructor
      · intro hc
        rw [h] at hc
        simp at hc
      · intro hall
        exact absurd h (hall hd (List.mem_cons_self hd tl))
    · obtain ⟨k₁, v₁⟩ := hd
      simp only at h
      simp only [lookupReg, if_neg h]
      rw [ih]
      constructor
      · intro hall p hp
        rcases List.mem_cons.mp hp with rfl | hmem
        · exact h
        · exact hall p hmem
      · intro hall p hp
        exact hall p (List.mem_cons_of_mem _ hp)

theorem lookupReg_some_mem (reg : Registry) (k v : String)
    (h : lookupReg reg k = some v) : (k, v) ∈ reg := by
  induction reg with
  | nil => simp [lookupReg] at h
  | cons hd tl ih =>
    obtain ⟨k₁, v₁⟩ := hd
    by_cases hk : k₁ = k
    · simp only [lookupReg, if_pos hk] at h
      obtain rfl := hk
      obtain rfl : v₁ = v := by injection h
      exact List.mem_cons_self _ _
    · simp only [lookupReg, if_neg hk] at h
      exact List.mem_cons_of_mem _ (ih h)

theorem removeReg_of_absent (reg : Registry) (k : String)
    (h : lookupReg reg k = none) : removeReg reg k = reg := by
  apply List.filter_eq_self.mpr
  intro p hp
  have := (lookupReg_eq_none_iff reg k).mp h p hp
  simpa [bne_iff_ne] using this

theorem removeReg_idem (reg : Registry) (k : String) :
    removeReg (removeReg reg k) k = removeReg reg k := by
  unfold removeReg
  apply List.filter_eq_self.mpr
  intro p hp
  exact (List.mem_filter.mp hp).2

theorem countReg_putReg_of_fresh (reg : Registry) (k v : String)
    (h : lookupReg reg k = none) :
    countReg (putReg reg k v) = countReg reg + 1 := by
  simp [putReg, h, countReg]

theorem countReg_removeReg_of_present (reg : Registry) (k : String)
    (hn : KeysNodup reg) (h : (lookupReg reg k).isSome) :
    countReg (removeReg reg k) + 1 = countReg reg := by
  induction reg with
  | nil => simp [lookupReg] at h
  | cons hd tl ih =>
    obtain ⟨k₁, v₁⟩ := hd
    unfold KeysNodup at hn
    simp only [List.map_cons, List.nodup_cons] at hn
    by_cases hk : k₁ = k
    · subst hk
      have htl : lookupReg tl k₁ = none := by
        rw [lookupReg_eq_none_iff]
        intro p hp hpk
        exact hn.1 (hpk ▸ List.mem_map_of_mem Prod.fst hp)
      have : removeReg ((k₁, v₁) :: tl) k₁ = tl := by
        simp only [removeReg, List.filter_cons]
        simp only [bne_self_eq_false]
        exact removeReg_of_absent tl k₁ htl
      rw [this]
      simp [countReg]
    · have hlt : (lookupReg tl k).isSome := by
        simpa [lookupReg, if_neg hk] using h
      have hrec := ih hn.2 hlt
      have hstep : removeReg ((k₁, v₁) :: tl) k = (k₁, v₁) :: removeReg tl k := by
        simp [removeReg, List.filter_cons, bne_iff_ne, hk]
      rw [hstep]
      simp only [countReg, List.length_cons] at hrec ⊢
      omega

theorem keysNodup_putReg (reg : Registry) (k v : String)
    (hn : KeysNodup reg) : KeysNodup (putReg reg k v) := by
  unfold putReg
  by_cases h : (lookupReg reg k).isSome
  · rw [if_pos h]
    unfold KeysNodup
    have hmap : (reg.map (fun p => if p.1 = k then (k, v) else p)).map Prod.fst
        = reg.map Prod.fst := by
      rw [List.map_map]
      apply List.map_congr_left
      intro p _
      by_cases hp : p.1 = k
      · simp [hp]
      · simp [hp]
    rw [hmap]
    exact hn
  · rw [if_neg h]
    unfold KeysNodup
    rw [List.map_append]
    rw [List.nodup_append]
    refine ⟨hn, List.nodup_singleton k, ?_⟩
    intro a ha hb
    simp only [List.map_cons, List.map_nil, List.mem_singleton] at hb
    subst hb
    have hnone : lookupReg reg a = none := by
      cases hx : lookupReg reg a with
      | none => rfl
      | some w => rw [hx] at h; simp at h
    rcases List.mem_map.mp ha with ⟨p, hp, hpa⟩
    exact (lookupReg_eq_none_iff reg a).mp hnone p hp hpa

theorem keysNodup_removeReg (reg : Registry) (k : String)
    (hn : KeysNodup reg) : KeysNodup (removeReg reg k) := by
  unfold KeysNodup removeReg
  exact List.Nodup.sublist (List.Sublist.map _ (List.filter_sublist reg)) hn

/-! ### Token codec

`signJwt` and the `jsonwebtoken` decode used by the gateway live in
`./utils` and the `jsonwebtoken` package, which are not part of the
provided sources; they are modelled from the spec (section 4.1). -/

/-- JavaScript `String.prototype.startsWith`, embedded on the character
list underlying the string. -/
def strStartsWith (s pre : String) : Bool := pre.data.isPrefixOf s.data

/-- JavaScript `String.prototype.slice(n)`. -/
def strDrop (s : String) (n : Nat) : String := ⟨s.data.drop n⟩

/-- JavaScript `String.prototype.trim()`: strips leading and trailing
whitespace. -/
def jsTrim (s : String) : String :=
  ⟨((s.data.dropWhile Char.isWhitespace).reverse.dropWhile Char.isWhitespace).reverse⟩

/-- Modelled from the spec: `signJwt` (TokenCodec.sign, from `./utils`,
not in the provided sources) "produces a signed string encoding at least
a `userId` claim".  The signed token is modelled as the claim behind a
signature marker. -/
def signJwt (userId : String) : String := "signed." ++ userId

/-- Modelled from the spec: `jwt.decode` (TokenCodec.decode, from the
`jsonwebtoken` package, not in the provided sources) is a "best-effort
decode without verification" recovering the user identifier claim. -/
def jwtDecodeUserId (token : String) : Option String :=
  if strStartsWith token "signed." then some (strDrop token 7) else none

/-! ### GET /sse: StreamConnectionHandler (index.ts lines 56-85) -/

/-- Outcome of a `GET /sse` request: either a fixed HTTP response
(`res.status(...).send(...)`) or an established session streaming over
the held-open response. -/
inductive SseResult
  | respond (status : Nat) (body : String)
  | connected (sessionId : String) (token : String)
deriving DecidableEq

/-- Credential resolution of the `/sse` handler (lines 57-66): a
`Bearer `-prefixed `Authorization` header yields its sliced-and-trimmed
remainder; otherwise, in development mode with a truthy `user` query
parameter, a token is minted via `signJwt`; otherwise no credential. -/
def resolveSseJwt (authHeader : Option String) (nodeEnv : String)
    (userParam : Option String) : Option String :=
  let devFallback :=
    match userParam with
    | some u => if nodeEnv = "development" ∧ u ≠ "" then some (signJwt u) else none
    | none => none
  match authHeader with
  | some h => if strStartsWith h "Bearer " then some (jsTrim (strDrop h 7)) else devFallback
  | none => devFallback

/-- The `GET /sse` handler (lines 56-85): resolve the credential; on
failure respond `401 Unauthorized` without touching the registry; on
success open the transport (whose fresh session id is `newSessionId`)
and register the session. -/
def handleSse (reg : Registry) (authHeader : Option String) (nodeEnv : String)
    (userParam : Option String) (newSessionId : String) : Registry × SseResult :=
  match resolveSseJwt authHeader nodeEnv userParam with
  | none => (reg, .respond 401 "Unauthorized")
  | some token => (putReg reg newSessionId token, .connected newSessionId token)

/-! ### Registry lifecycle traces (claim C4)

Connections register via `transports[transport.sessionId] = ...`
(line 69), disconnections remove via the `res.on("close")` hook
(lines 79-82), and shutdown drains the whole table (lines 177-179). -/

/-- One lifecycle event on the registry. -/
inductive Op
  | connect (id token : String)
  | disconnect (id : String)
  | drain
deriving DecidableEq

/-- Effect of one lifecycle event on the `transports` table. -/
def applyOp (reg : Registry) : Op → Registry
  | .connect id token => putReg reg id token
  | .disconnect id => removeReg reg id
  | .drain => drainReg reg

/-- Run a sequence of lifecycle events. -/
def runOps : Registry → List Op → Registry
  | reg, [] => reg
  | reg, op :: ops => runOps (applyOp reg op) ops

/-- A trace is legal when every connect carries a transport-generated
fresh session id and every disconnect notification is for a session that
is still registered. -/
def legalOps : Registry → List Op → Bool
  | _, [] => true
  | reg, .connect id token :: ops =>
      (lookupReg reg id).isNone && legalOps (putReg reg id token) ops
  | reg, .disconnect id :: ops =>
      (lookupReg reg id).isSome && legalOps (removeReg reg id) ops
  | reg, .drain :: ops => legalOps (drainReg reg) ops

/-- Number of sessions connected along a trace. -/
def numConnects : List Op → Nat
  | [] => 0
  | .connect _ _ :: ops => numConnects ops + 1
  | .disconnect _ :: ops => numConnects ops
  | .drain :: ops => numConnects ops

/-- Number of sessions disconnected or drained along a trace starting
from `reg` (a drain removes every session present at that moment). -/
def removals : Registry → List Op → Nat
  | _, [] => 0
  | reg, .connect id token :: ops => removals (putReg reg id token) ops
  | reg, .disconnect id :: ops => removals (removeReg reg id) ops + 1
  | reg, .drain :: ops => removals (drainReg reg) ops + countReg reg

theorem runOps_keysNodup (ops : List Op) :
    ∀ reg : Registry, KeysNodup reg → KeysNodup (runOps reg ops) := by
  induction ops with
  | nil => intro reg hn; exact hn
  | cons op ops ih =>
    intro reg hn
    cases op with
    | connect id token => exact ih _ (keysNodup_putReg reg id token hn)
    | disconnect id => exact ih _ (keysNodup_removeReg reg id hn)
    | drain => exact ih _ (by simp [applyOp, drainReg, KeysNodup])

theorem runOps_count (ops : List Op) :
    ∀ reg : Registry, KeysNodup reg → legalOps reg ops = true →
      countReg (runOps reg ops) + removals reg ops = countReg reg + numConnects ops := by
  induction ops with
  | nil => intro reg _ _; simp [runOps, removals, numConnects]
  | cons op ops ih =>
    intro reg hn hl
    cases op with
    | connect id token =>
      rw [legalOps, Bool.and_eq_true] at hl
      have hfresh : lookupReg reg id = none := by
        cases hx : lookupReg reg id with
        | none => rfl
        | some w => rw [hx] at hl; simp at hl
      have := ih (putReg reg id token) (keysNodup_putReg reg id token hn) hl.2
      simp only [runOps, applyOp, removals, numConnects]
      rw [this, countReg_putReg_of_fresh reg id token hfresh]
      omega
    | disconnect id =>
      rw [legalOps, Bool.and_eq_true] at hl
      have := ih (removeReg reg id) (keysNodup_removeReg reg id hn) hl.2
      have hcnt := countReg_removeReg_of_present reg id hn hl.1
      simp only [runOps, applyOp, removals, numConnects]
      omega
    | drain =>
      rw [legalOps] at hl
      have := ih (drainReg reg) (by simp [drainReg, KeysNodup]) hl
      simp only [runOps, applyOp, removals, numConnects]
      simp only [drainReg, countReg, List.length_nil] at this ⊢
      omega

/-! ### POST /messages: MessageRouter (index.ts lines 87-104) -/

/-- Result of `transport.handlePostMessage(req, res)` as seen by the
router: resolved, or rejected before any part of the response was sent
(`res.headersSent` false), or rejected after (`res.headersSent` true). -/
inductive DelegOutcome
  | ok
  | errNotSent (msg : String)
  | errSent (msg : String)
deriving DecidableEq

/-- Observable actions the `POST /messages` handler performs on the
request/response pair, in order. -/
inductive RouteEvent
  | delegate (sessionId : String) (token : String)
  | respondText (status : Nat) (body : String)
  | respondJsonError (status : Nat) (error : String)
deriving DecidableEq

/-- The body field of the not-found response (line 103). -/
def noTransportMsg : String := "No transport found for sessionId"

/-- The `POST /messages` handler (lines 87-104): look up
`req.query.sessionId` (absent or empty is falsy); when a transport is
registered, delegate to it, answering 500 with the error message if the
delegation rejects before the response started; otherwise fall through
to the 404 not-found response. -/
def handleMessages (reg : Registry) (sessionId : Option String)
    (outcome : DelegOutcome) : Registry × List RouteEvent :=
  match sessionId with
  | none => (reg, [.respondJsonError 404 noTransportMsg])
  | some sid =>
    if sid = "" then (reg, [.respondJsonError 404 noTransportMsg])
    else
      match lookupReg reg sid with
      | none => (reg, [.respondJsonError 404 noTransportMsg])
      | some token =>
        match outcome with
        | .ok => (reg, [.delegate sid token])
        | .errNotSent msg => (reg, [.delegate sid token, .respondText 500 msg])
        | .errSent _ => (reg, [.delegate sid token, .respondJsonError 404 noTransportMsg])

/-- The transports a run of the handler delegated to. -/
def delegTargets (events : List RouteEvent) : List (String × String) :=
  events.filterMap fun e =>
    match e with
    | .delegate sid token => some (sid, token)
    | _ => none

/-- Registered session ids are transport-generated and hence non-empty
(JS would treat an empty id as falsy). -/
def WellFormedIds (reg : Registry) : Prop := ∀ p ∈ reg, p.1 ≠ ""

instance (reg : Registry) : Decidable (WellFormedIds reg) := by
  unfold WellFormedIds; infer_instance

/-! ### GET /health (index.ts lines 106-119) -/

/-- The JSON object built by the `/health` handler. -/
structure HealthStatus where
  status : String
  timestamp : String
  uptime : Nat
  version : String
  environment : String
  activeConnections : Nat
  integrations : Nat
  tools : Nat
deriving DecidableEq

/-- The `GET /health` handler (lines 106-119): a pure read of the
registry and startup data, answered with status 200. -/
def handleHealth (reg : Registry) (timestamp : String) (uptime : Nat)
    (env : String) (nIntegrations nTools : Nat) : Registry × Nat × HealthStatus :=
  (reg, 200,
    { status := "healthy", timestamp := timestamp, uptime := uptime,
      version := "1.0.0", environment := env,
      activeConnections := countReg reg,
      integrations := nIntegrations, tools := nTools })

/-! ### Shutdown: handleShutdown (index.ts lines 169-181)

`handleShutdown` awaits `Promise.all` over the close of every registered
transport.  The `map` eagerly starts every close, so each close is
invoked exactly once; but `Promise.all` rejects as soon as any close
rejects, the `await` then throws out of `handleShutdown`, and
`server.close()`, the registry-clearing loop and `process.exit(0)` are
never reached. -/

/-- Observable outcome of one run of `handleShutdown`, parametrised by
which transports' close operations fail. -/
structure ShutdownOutcome where
  closeInvoked : List String
  serverClosed : Bool
  registryAfter : Registry
  exited : Option Nat
deriving DecidableEq

/-- The shutdown handler (lines 169-181). -/
def handleShutdown (reg : Registry) (closeFails : String → Bool) : ShutdownOutcome :=
  let ids := reg.map Prod.fst
  if ids.any closeFails then
    { closeInvoked := ids, serverClosed := false, registryAfter := reg, exited := none }
  else
    { closeInvoked := ids, serverClosed := true, registryAfter := drainReg reg,
      exited := some 0 }

/-- Whether the router considers the request's session id known: present,
truthy, and registered. -/
def knownSession (reg : Registry) (sessionId : Option String) : Bool :=
  match sessionId with
  | none => false
  | some sid => !(sid == "") && (lookupReg reg sid).isSome

theorem runOps_append (l₁ l₂ : List Op) :
    ∀ reg : Registry, runOps reg (l₁ ++ l₂) = runOps (runOps reg l₁) l₂ := by
  induction l₁ with
  | nil => intro reg; rfl
  | cons op ops ih => intro reg; simp only [List.cons_append, runOps]; exact ih _

/-- A sample lifecycle trace used to instantiate the registry invariant. -/
def demoTrace : List Op :=
  [Op.connect "a" "ta", Op.connect "b" "tb", Op.disconnect "a", Op.drain]

/-! ## Claims -/

/-- C1 counterexample: a `GET /sse` request bearing `Authorization:
Bearer not-a-signed-token` — a credential that is not a validly signed
token (its decode fails) — is not answered 401; the handler creates a
session and mutates the registry, because the code never verifies the
Bearer token's signature. -/
theorem sse_invalid_bearer_creates_session :
    handleSse [] (some "Bearer not-a-signed-token") "production" none "sid1"
      = ([("sid1", "not-a-signed-token")], SseResult.connected "sid1" "not-a-signed-token")
    ∧ jwtDecodeUserId "not-a-signed-token" = none := by
  decide

/-- C1 (amended): for every `GET /sse` request whose credential is
missing — no `Bearer `-prefixed Authorization header and no development
fallback — the server responds 401 with the plain-text body
`Unauthorized`, no session is created, and the registry is returned
unchanged.  (Bearer-prefixed tokens are admitted without signature
verification.) -/
theorem sse_unauthorized_no_mutation (reg : Registry) (authHeader : Option String)
    (nodeEnv : String) (userParam : Option String) (sid : String)
    (h : resolveSseJwt authHeader nodeEnv userParam = none) :
    handleSse reg authHeader nodeEnv userParam sid
      = (reg, SseResult.respond 401 "Unauthorized") := by
  simp [handleSse, h]

theorem sse_unauthorized_no_mutation_witness :
    resolveSseJwt none "production" (some "alice") = none
    ∧ handleSse [("s1", "t")] none "production" (some "alice") "sid9"
        = ([("s1", "t")], SseResult.respond 401 "Unauthorized") :=
  ⟨by decide,
   sse_unauthorized_no_mutation [("s1", "t")] none "production" (some "alice") "sid9"
     (by decide)⟩

/-- C2: with two active sessions of which the first transport's close
rejects, `handleShutdown` invokes both closes (the eager `map`), but the
awaited `Promise.all` rejects, so `server.close()`, the registry-clearing
loop and `process.exit(0)` are skipped: the registry still holds both
sessions and no success exit occurs — contradicting the claim that a
close failure leaves the registry at 0 and the process exiting
successfully. -/
theorem shutdown_close_failure_aborts :
    handleShutdown [("a", "t1"), ("b", "t2")] (fun s => s == "a")
      = { closeInvoked := ["a", "b"], serverClosed := false,
          registryAfter := [("a", "t1"), ("b", "t2")], exited := none }
    ∧ countReg (handleShutdown [("a", "t1"), ("b", "t2")] (fun s => s == "a")).registryAfter
        = 2
    ∧ handleShutdown [("a", "t1"), ("b", "t2")] (fun _ => false)
      = { closeInvoked := ["a", "b"], serverClosed := true,
          registryAfter := [], exited := some 0 } := by
  decide

/-- C3: for a registered session whose delegation rejects before any part
of the response was sent, the router answers 500 with the error's
message, as claimed; but when the rejection comes after the response was
already sent, the catch block does not return, control falls through to
the not-found branch, and a second response (`res.status(404).json`) is
attempted — contradicting the claim that nothing further is sent. -/
theorem messages_double_response_attempted :
    handleMessages [("s1", "tok")] (some "s1") (DelegOutcome.errNotSent "boom")
      = ([("s1", "tok")],
          [RouteEvent.delegate "s1" "tok", RouteEvent.respondText 500 "boom"])
    ∧ handleMessages [("s1", "tok")] (some "s1") (DelegOutcome.errSent "boom")
      = ([("s1", "tok")],
          [RouteEvent.delegate "s1" "tok",
           RouteEvent.respondJsonError 404 noTransportMsg]) := by
  decide

/-- C4: along every legal lifecycle trace from the empty registry, the
registry count plus the number of sessions disconnected or drained equals
the number of sessions connected (so the count is that difference and,
as `removals ≤ numConnects` shows, it is never negative); session ids in
the table stay pairwise distinct, each mapping to one transport; and the
count is 0 immediately after any drain. -/
theorem registry_count_invariant (ops : List Op) (h : legalOps [] ops = true) :
    countReg (runOps [] ops) + removals [] ops = numConnects ops
    ∧ KeysNodup (runOps [] ops)
    ∧ removals [] ops ≤ numConnects ops
    ∧ ∀ pre post, ops = pre ++ Op.drain :: post →
        countReg (runOps [] (pre ++ [Op.drain])) = 0 := by
  have hmain := runOps_count ops [] (by simp [KeysNodup]) h
  simp only [countReg, List.length_nil, Nat.zero_add] at hmain
  refine ⟨hmain, runOps_keysNodup ops [] (by simp [KeysNodup]), by omega, ?_⟩
  intro pre post _
  rw [runOps_append]
  simp [runOps, applyOp, drainReg, countReg]

theorem registry_count_invariant_witness :
    legalOps [] demoTrace = true
    ∧ (countReg (runOps [] demoTrace) + removals [] demoTrace = numConnects demoTrace
       ∧ KeysNodup (runOps [] demoTrace)
       ∧ removals [] demoTrace ≤ numConnects demoTrace
       ∧ countReg (runOps []
           ([Op.connect "a" "ta", Op.connect "b" "tb", Op.disconnect "a"] ++ [Op.drain]))
           = 0) :=
  ⟨by decide,
   (registry_count_invariant demoTrace (by decide)).1,
   (registry_count_invariant demoTrace (by decide)).2.1,
   (registry_count_invariant demoTrace (by decide)).2.2.1,
   (registry_count_invariant demoTrace (by decide)).2.2.2
     [Op.connect "a" "ta", Op.connect "b" "tb", Op.disconnect "a"] [] rfl⟩

/-- C5: a `POST /messages` request whose session id is registered (ids in
the registry being transport-generated and hence non-empty) is delegated
to exactly that session's transport, exactly once, whatever the
delegation's outcome — and to no other transport. -/
theorem messages_delegate_exactly_once (reg : Registry) (sid token : String)
    (outcome : DelegOutcome) (hwf : WellFormedIds reg)
    (h : lookupReg reg sid = some token) :
    delegTargets (handleMessages reg (some sid) outcome).2 = [(sid, token)] := by
  have hne : sid ≠ "" := hwf (sid, token) (lookupReg_some_mem reg sid token h)
  cases outcome <;> simp [handleMessages, hne, h, delegTargets]

theorem messages_delegate_exactly_once_witness :
    WellFormedIds [("s1", "t1"), ("s2", "t2")]
    ∧ lookupReg [("s1", "t1"), ("s2", "t2")] "s2" = some "t2"
    ∧ delegTargets (handleMessages [("s1", "t1"), ("s2", "t2")] (some "s2")
        DelegOutcome.ok).2 = [("s2", "t2")] :=
  ⟨by decide, by decide,
   messages_delegate_exactly_once [("s1", "t1"), ("s2", "t2")] "s2" "t2"
     DelegOutcome.ok (by decide) (by decide)⟩

/-- C6: a `POST /messages` request whose session id is absent, falsy, or
not registered is answered 404 with the JSON error body
`No transport found for sessionId`, and the registry is returned
unchanged. -/
theorem messages_unknown_session_404 (reg : Registry) (sessionId : Option String)
    (outcome : DelegOutcome) (h : knownSession reg sessionId = false) :
    handleMessages reg sessionId outcome
      = (reg, [RouteEvent.respondJsonError 404 noTransportMsg]) := by
  match sessionId with
  | none => rfl
  | some sid =>
    by_cases hs : sid = ""
    · simp [handleMessages, hs]
    · have hnone : lookupReg reg sid = none := by
        simp only [knownSession, hs, beq_iff_eq, if_neg] at h
        simpa [hs] using h
      simp [handleMessages, hs, hnone]

theorem messages_unknown_session_404_witness :
    knownSession [("s1", "t1")] (some "zz") = false
    ∧ handleMessages [("s1", "t1")] (some "zz") DelegOutcome.ok
      = ([("s1", "t1")], [RouteEvent.respondJsonError 404 noTransportMsg]) :=
  ⟨by decide,
   messages_unknown_session_404 [("s1", "t1")] (some "zz") DelegOutcome.ok (by decide)⟩

/-- C7: without an Authorization header in any non-development
environment the `/sse` handler answers 401 regardless of query
parameters; the same header-less request in development mode with
`?user=alice` registers a session whose stored token is minted for
`alice`, and decoding that stored token recovers the identity claim
`alice`. -/
theorem sse_auth_dev_and_prod (reg : Registry) (env : String)
    (userParam : Option String) (sid : String) (hdev : env ≠ "development") :
    handleSse reg none env userParam sid = (reg, SseResult.respond 401 "Unauthorized")
    ∧ handleSse reg none "development" (some "alice") sid
        = (putReg reg sid (signJwt "alice"), SseResult.connected sid (signJwt "alice"))
    ∧ jwtDecodeUserId (signJwt "alice") = some "alice" := by
  refine ⟨?_, rfl, by decide⟩
  have hres : resolveSseJwt none env userParam = none := by
    cases userParam with
    | none => rfl
    | some u => simp [resolveSseJwt, hdev]
  simp [handleSse, hres]

theorem sse_auth_dev_and_prod_witness :
    ("production" : String) ≠ "development"
    ∧ (handleSse [] none "production" (some "alice") "sid1"
        = ([], SseResult.respond 401 "Unauthorized")
       ∧ handleSse [] none "development" (some "alice") "sid1"
        = ([("sid1", signJwt "alice")], SseResult.connected "sid1" (signJwt "alice"))
       ∧ jwtDecodeUserId (signJwt "alice") = some "alice") :=
  ⟨by decide, sse_auth_dev_and_prod [] "production" (some "alice") "sid1" (by decide)⟩

/-- C8: session removal is idempotent: deleting an id that is not in the
registry is a no-op (and, being a total function, cannot throw), so the
disconnect teardown hook is safe after shutdown already removed the
session; and deleting the same id twice leaves the registry exactly as
deleting it once. -/
theorem remove_session_idempotent (reg reg' : Registry) (k : String)
    (h : lookupReg reg k = none) :
    removeReg reg k = reg
    ∧ removeReg (removeReg reg' k) k = removeReg reg' k :=
  ⟨removeReg_of_absent reg k h, removeReg_idem reg' k⟩

theorem remove_session_idempotent_witness :
    lookupReg [("a", "t")] "b" = none
    ∧ (removeReg [("a", "t")] "b" = [("a", "t")]
       ∧ removeReg (removeReg [("b", "u"), ("c", "v")] "b") "b"
          = removeReg [("b", "u"), ("c", "v")] "b") :=
  ⟨by decide, remove_session_idempotent [("a", "t")] [("b", "u"), ("c", "v")] "b" (by decide)⟩

/-- C9: `GET /health` always answers 200 with the JSON object holding
status, timestamp, uptime, version, environment, active-connection
count, integration count and tool count; the active-connection count
equals the registry's current count (3 for a three-session registry);
and the handler returns the registry unchanged — it is a pure read. -/
theorem health_pure_and_counts (reg : Registry) (ts : String) (uptime : Nat)
    (env : String) (ni nt : Nat) :
    (handleHealth reg ts uptime env ni nt).1 = reg
    ∧ (handleHealth reg ts uptime env ni nt).2.1 = 200
    ∧ (handleHealth reg ts uptime env ni nt).2.2
        = { status := "healthy", timestamp := ts, uptime := uptime,
            version := "1.0.0", environment := env,
            activeConnections := countReg reg, integrations := ni, tools := nt }
    ∧ (handleHealth reg ts uptime env ni nt).2.2.activeConnections = countReg reg
    ∧ (handleHealth [("a", "x"), ("b", "y"), ("c", "z")] ts uptime env ni nt).2.2.activeConnections
        = 3 :=
  ⟨rfl, rfl, rfl, rfl, rfl⟩

/-- C10: in development mode with a truthy `user` query parameter, a
`GET /sse` request whose Authorization header is present but not
`Bearer `-prefixed is still admitted through the development fallback —
a fresh token is minted for the query-parameter user and a session is
registered — rather than rejected with 401: the fallback triggers
whenever the Bearer-prefix test fails, not only when the header is
absent. -/
theorem sse_dev_fallback_non_bearer (reg : Registry) (h u sid : String)
    (hb : strStartsWith h "Bearer " = false) (hu : u ≠ "") :
    handleSse reg (some h) "development" (some u) sid
      = (putReg reg sid (signJwt u), SseResult.connected sid (signJwt u)) := by
  have hres : resolveSseJwt (some h) "development" (some u) = some (signJwt u) := by
    simp [resolveSseJwt, hb, hu]
  simp [handleSse, hres]

theorem sse_dev_fallback_non_bearer_witness :
    strStartsWith "Basic xyz" "Bearer " = false
    ∧ ("bob" : String) ≠ ""
    ∧ handleSse [] (some "Basic xyz") "development" (some "bob") "sid7"
        = ([("sid7", signJwt "bob")], SseResult.connected "sid7" (signJwt "bob")) :=
  ⟨by decide, by decide,
   sse_dev_fallback_non_bearer [] "Basic xyz" "bob" "sid7" (by decide) (by decide)⟩

end McpGateway
